import Mathlib

/-!
Verification development for the eSCL device-capabilities parser
(`airscan-devcaps.c`) of sane-airscan.

The C code is shallowly embedded: each parser that walks the XML tree with
the `xml_iter` cursor becomes a structurally recursive Lean function over a
tree of `XmlNode`s; the mutable `devcaps_source` / `devcaps` structures are
threaded explicitly; `const char *` error results become `Option String`
(`none` = success, as `NULL` in C).  Helpers that live outside the shown
sources (`airscan-xml.c`, `airscan-math.c`, `airscan-array.c`, `airscan.h`)
are modelled from the spec and marked as such.
-/

/-- An XML element: qualified name, text value, children.  This is the tree
the `xml_iter` cursor of the C code walks (enter = descend into `children`,
next = step through a `List`, node_name_match = name equality,
node_value = `value`). -/
inductive XmlNode where
  | mk (name : String) (value : String) (children : List XmlNode)

/-- Qualified name of a node. -/
def XmlNode.name : XmlNode → String
  | .mk n _ _ => n

/-- Text value of a node. -/
def XmlNode.value : XmlNode → String
  | .mk _ v _ => v

/-- Children of a node. -/
def XmlNode.children : XmlNode → List XmlNode
  | .mk _ _ c => c

/-- Modelled from the spec: `xml_iter_node_value_uint` (`airscan-xml.c`, not
under `src/`): parses the node text as a non-negative integer, failing with a
descriptive error if the text is not a valid unsigned integer. -/
def xml_iter_node_value_uint (s : String) : Except String Nat :=
  if s.data ≠ [] ∧ s.data.all (fun c => c.isDigit) then
    .ok (s.data.foldl (fun n c => n * 10 + (c.toNat - 48)) 0)
  else
    .error "XML: invalid unsigned integer value"

/-- The lower-cased ASCII code of a character (codes 65-90 shift by 32). -/
def ascii_lower_code (c : Char) : Nat :=
  if 65 ≤ c.toNat ∧ c.toNat ≤ 90 then c.toNat + 32 else c.toNat

/-- `strcasecmp(a, b) == 0`: ASCII-case-insensitive string equality. -/
def str_caseless_eq (a b : String) : Bool :=
  a.data.map ascii_lower_code == b.data.map ascii_lower_code

/-- `g_str_has_suffix(s, suffix)`. -/
def g_str_has_suffix (s suffix : String) : Bool :=
  List.isSuffixOf suffix.data s.data

/-- `g_strndup(s, n)`: the first `n` characters of `s` (bytes in C;
agreeing on ASCII). -/
def g_strndup (s : String) (n : Nat) : String :=
  String.mk (s.data.take n)

/-- `SANE_Range`: min/max bounds and quantization step.  The parsed values
come from the unsigned-integer reader, so the fields are `Nat`. -/
structure SANE_Range where
  min : Nat
  max : Nat
  quant : Nat
deriving Repr, DecidableEq

/-- The capability flags of a source.  The C code keeps them as bits of
`src->flags`; each bit becomes a `Bool` field. -/
structure DevcapsFlags where
  colormode_bw1 : Bool
  colormode_grayscale8 : Bool
  colormode_rgb24 : Bool
  fmt_jpeg : Bool
  fmt_png : Bool
  fmt_pdf : Bool
  res_discrete : Bool
  res_range : Bool
  has_size : Bool
deriving Repr, DecidableEq

/-- All flags clear (a zeroed `flags` word). -/
def DevcapsFlags.empty : DevcapsFlags :=
  ⟨false, false, false, false, false, false, false, false, false⟩

/-- `devcaps_source`: capabilities of one input source.  `resolutions` models
the `array_of_word` of discrete resolutions (the C array keeps its length at
index 0 and the values at indices 1..len; the list holds just the values, in
the same order). -/
structure devcaps_source where
  flags : DevcapsFlags
  resolutions : List Nat
  res_range : SANE_Range
  min_width : Nat
  max_width : Nat
  min_height : Nat
  max_height : Nat
  win_x_range : SANE_Range
  win_y_range : SANE_Range
deriving Repr, DecidableEq

/-- `devcaps_source_new`: `g_new0` + empty resolution array. -/
def devcaps_source_new : devcaps_source :=
  { flags := DevcapsFlags.empty
    resolutions := []
    res_range := ⟨0, 0, 0⟩
    min_width := 0
    max_width := 0
    min_height := 0
    max_height := 0
    win_x_range := ⟨0, 0, 0⟩
    win_y_range := ⟨0, 0, 0⟩ }

/-- `devcaps`: the whole capability document.  `NULL` source pointers become
`none`. -/
structure devcaps where
  vendor : Option String
  model : Option String
  sources : List String
  src_platen : Option devcaps_source
  src_adf_simplex : Option devcaps_source
  src_adf_duplex : Option devcaps_source
deriving Repr, DecidableEq

/-- A zeroed, freshly initialized `devcaps` structure. -/
def devcaps_empty : devcaps :=
  { vendor := none
    model := none
    sources := []
    src_platen := none
    src_adf_simplex := none
    src_adf_duplex := none }

/-- `devcaps_reset`: free all allocated memory, clear the structure
(`memset(caps, 0, sizeof(*caps))`). -/
def devcaps_reset (_ : devcaps) : devcaps :=
  devcaps_empty

/-- Modelled from the spec: `array_of_word_sort` (`airscan-array.c`, not under
`src/`) sorts the value list ascending: insertion of one element. -/
def word_insert (x : Nat) : List Nat → List Nat
  | [] => [x]
  | y :: ys => if x ≤ y then x :: y :: ys else y :: word_insert x ys

/-- Modelled from the spec: `array_of_word_sort` sorts ascending
(insertion sort; duplicates are kept). -/
def array_of_word_sort (l : List Nat) : List Nat :=
  l.foldr word_insert []

/-- Modelled from the spec: `math_range_merge` (`airscan-math.c`, not under
`src/`): merges two axis ranges into one; succeeds only if the two ranges
admit a common value (mutually satisfiable single range), i.e. their
intersection is non-empty. -/
def math_range_merge (r1 r2 : SANE_Range) : Option SANE_Range :=
  let lo := Nat.max r1.min r2.min
  let hi := Nat.min r1.max r2.max
  if lo ≤ hi then some ⟨lo, hi, Nat.max r1.quant r2.quant⟩ else none

/-- Modelled from the spec: `math_range_fit` (`airscan-math.c`, not under
`src/`): clamp the requested value into `[min, max]`; if `quant > 0`, round
to the nearest multiple of `quant` (counted from `min`) within bounds. -/
def math_range_fit (r : SANE_Range) (w : Int) : Int :=
  let c : Int := Int.ofNat r.min ⊔ (w ⊓ Int.ofNat r.max)
  if r.quant = 0 then c
  else
    let q : Int := Int.ofNat r.quant
    let v := Int.ofNat r.min + ((c - Int.ofNat r.min + q / 2) / q) * q
    v ⊓ Int.ofNat r.max

/-- `devcaps_source_choose_resolution`, discrete branch: the fold step of the
scan `if (delta2 <= delta) { res = res2; delta = delta2; }`. -/
def choose_step (wanted : Int) (acc : Int × Nat) (res2 : Nat) : Int × Nat :=
  let delta2 := (wanted - Int.ofNat res2).natAbs
  if delta2 ≤ acc.2 then (Int.ofNat res2, delta2) else acc

/-- `devcaps_source_choose_resolution`: choose an appropriate scanner
resolution.  With the discrete flag set, scans `resolutions[1..len]` keeping
the current best unless the new delta is `<=` the current one; otherwise fits
the request into the resolution range.  (The C code reads `resolutions[1]`
unconditionally; the discrete flag is only ever set for a non-empty array,
so the empty case is unreachable in parsed sources and returns 0 here.) -/
def devcaps_source_choose_resolution (src : devcaps_source) (wanted : Int) : Int :=
  if src.flags.res_discrete then
    match src.resolutions with
    | [] => 0
    | r :: rest =>
      (rest.foldl (choose_step wanted) (Int.ofNat r, (wanted - Int.ofNat r).natAbs)).1
  else
    math_range_fit src.res_range wanted

/-- `devcaps_source_parse_color_modes`: the loop over `scan:ColorMode`
children (always succeeds). -/
def devcaps_source_parse_color_modes
    (children : List XmlNode) (src : devcaps_source) : devcaps_source :=
  children.foldl
    (fun src node =>
      if node.name = "scan:ColorMode" then
        if node.value = "BlackAndWhite1" then
          { src with flags := { src.flags with colormode_bw1 := true } }
        else if node.value = "Grayscale8" then
          { src with flags := { src.flags with colormode_grayscale8 := true } }
        else if node.value = "RGB24" then
          { src with flags := { src.flags with colormode_rgb24 := true } }
        else src
      else src)
    src

/-- `devcaps_source_parse_document_formats`: the loop over document-format
children; MIME values compare case-insensitively (`strcasecmp`). -/
def devcaps_source_parse_document_formats
    (children : List XmlNode) (src : devcaps_source) : devcaps_source :=
  children.foldl
    (fun src node =>
      if node.name = "pwg:DocumentFormat" ∨ node.name = "scan:DocumentFormatExt" then
        if str_caseless_eq node.value "image/jpeg" then
          { src with flags := { src.flags with fmt_jpeg := true } }
        else if str_caseless_eq node.value "image/png" then
          { src with flags := { src.flags with fmt_png := true } }
        else if str_caseless_eq node.value "application/pdf" then
          { src with flags := { src.flags with fmt_pdf := true } }
        else src
      else src)
    src

/-- Inner loop of `devcaps_source_parse_discrete_resolutions`: read the
`scan:XResolution` / `scan:YResolution` values of one
`scan:DiscreteResolution` element, stopping at the first error. -/
def discrete_entry_loop : List XmlNode → Nat → Nat → Option String × Nat × Nat
  | [], x, y => (none, x, y)
  | node :: rest, x, y =>
    if node.name = "scan:XResolution" then
      match xml_iter_node_value_uint node.value with
      | .ok v => discrete_entry_loop rest v y
      | .error e => (some e, x, y)
    else if node.name = "scan:YResolution" then
      match xml_iter_node_value_uint node.value with
      | .ok v => discrete_entry_loop rest x v
      | .error e => (some e, x, y)
    else
      discrete_entry_loop rest x y

/-- Outer loop of `devcaps_source_parse_discrete_resolutions`: for each
`scan:DiscreteResolution` child read the X/Y pair and append `x` when
`x && y && x == y` (the append check runs even when the inner loop erred;
the outer loop stops on error). -/
def discrete_loop : List XmlNode → devcaps_source → Option String × devcaps_source
  | [], src => (none, src)
  | node :: rest, src =>
    if node.name = "scan:DiscreteResolution" then
      let r := discrete_entry_loop node.children 0 0
      let x := r.2.1
      let y := r.2.2
      let src :=
        if x ≠ 0 ∧ y ≠ 0 ∧ x = y then
          { src with resolutions := src.resolutions ++ [x] }
        else src
      match r.1 with
      | some e => (some e, src)
      | none => discrete_loop rest src
    else
      discrete_loop rest src

/-- `devcaps_source_parse_discrete_resolutions`: after the loop, a non-empty
value array sets the discrete flag and is sorted (this runs whether or not
the loop erred, as in the C code). -/
def devcaps_source_parse_discrete_resolutions
    (children : List XmlNode) (src : devcaps_source) : Option String × devcaps_source :=
  let r := discrete_loop children src
  let src := r.2
  let src :=
    if src.resolutions.length > 0 then
      { src with flags := { src.flags with res_discrete := true },
                 resolutions := array_of_word_sort src.resolutions }
    else src
  (r.1, src)

/-- Inner loop of `devcaps_source_parse_resolutions_range`: read
`scan:Min` / `scan:Max` / `scan:Step` into the selected axis range, stopping
at the first error. -/
def range_subloop : List XmlNode → SANE_Range → Option String × SANE_Range
  | [], range => (none, range)
  | node :: rest, range =>
    if node.name = "scan:Min" then
      match xml_iter_node_value_uint node.value with
      | .ok v => range_subloop rest { range with min := v }
      | .error e => (some e, range)
    else if node.name = "scan:Max" then
      match xml_iter_node_value_uint node.value with
      | .ok v => range_subloop rest { range with max := v }
      | .error e => (some e, range)
    else if node.name = "scan:Step" then
      match xml_iter_node_value_uint node.value with
      | .ok v => range_subloop rest { range with quant := v }
      | .error e => (some e, range)
    else
      range_subloop rest range

/-- Outer loop of `devcaps_source_parse_resolutions_range`.  As in the C
code, BOTH tag-match branches test `"scan:XResolution"` (the second branch,
meant for the Y axis, repeats the X tag name), so the Y range is only ever
touched by the second, dead branch. -/
def range_outer_loop :
    List XmlNode → SANE_Range → SANE_Range → Option String × SANE_Range × SANE_Range
  | [], range_x, range_y => (none, range_x, range_y)
  | node :: rest, range_x, range_y =>
    if node.name = "scan:XResolution" then
      match range_subloop node.children range_x with
      | (some e, range_x') => (some e, range_x', range_y)
      | (none, range_x') => range_outer_loop rest range_x' range_y
    else if node.name = "scan:XResolution" then
      match range_subloop node.children range_y with
      | (some e, range_y') => (some e, range_x, range_y')
      | (none, range_y') => range_outer_loop rest range_x range_y'
    else
      range_outer_loop rest range_x range_y

/-- `devcaps_source_parse_resolutions_range`: run the loop from zeroed X/Y
ranges, then (whether or not the loop erred, as in the C control flow) check
`min > max` per axis — each check overwrites any pending loop error —
normalize a quantization of 1 to 0, and merge the two axis ranges; a
successful merge stores the merged range, sets the range flag, and returns
the pending loop error. -/
def devcaps_source_parse_resolutions_range
    (children : List XmlNode) (src : devcaps_source) : Option String × devcaps_source :=
  let r := range_outer_loop children ⟨0, 0, 0⟩ ⟨0, 0, 0⟩
  let err := r.1
  let range_x := r.2.1
  let range_y := r.2.2
  if range_x.min > range_x.max then
    (some "Invalid scan:XResolution range", src)
  else if range_y.min > range_y.max then
    (some "Invalid scan:YResolution range", src)
  else
    let range_x := if range_x.quant = 1 then { range_x with quant := 0 } else range_x
    let range_y := if range_y.quant = 1 then { range_y with quant := 0 } else range_y
    match math_range_merge range_x range_y with
    | none => (some "Incompatible scan:XResolution and scan:YResolution ranges", src)
    | some merged =>
      (err, { src with res_range := merged,
                       flags := { src.flags with res_range := true } })

/-- Loop of `devcaps_source_parse_resolutions`: dispatch the
`scan:DiscreteResolutions` and `scan:ResolutionRange` children, stopping at
the first error. -/
def resolutions_loop : List XmlNode → devcaps_source → Option String × devcaps_source
  | [], src => (none, src)
  | node :: rest, src =>
    if node.name = "scan:DiscreteResolutions" then
      match devcaps_source_parse_discrete_resolutions node.children src with
      | (some e, src') => (some e, src')
      | (none, src') => resolutions_loop rest src'
    else if node.name = "scan:ResolutionRange" then
      match devcaps_source_parse_resolutions_range node.children src with
      | (some e, src') => (some e, src')
      | (none, src') => resolutions_loop rest src'
    else
      resolutions_loop rest src

/-- `devcaps_source_parse_resolutions`: after the dispatch loop, the discrete
flag (if set) clears the range flag — discrete resolutions are preferred when
both are provided — and if neither flag is set the error becomes
"Source resolutions are not defined" (overwriting any pending error, as in
the C code). -/
def devcaps_source_parse_resolutions
    (children : List XmlNode) (src : devcaps_source) : Option String × devcaps_source :=
  let r := resolutions_loop children src
  let src := r.2
  let src :=
    if src.flags.res_discrete then
      { src with flags := { src.flags with res_range := false } }
    else src
  let err :=
    if ¬(src.flags.res_discrete || src.flags.res_range) then
      some "Source resolutions are not defined"
    else r.1
  (err, src)

/-- Inner loop of `devcaps_source_parse_setting_profiles`: one
`scan:SettingProfile` contributes color modes, document formats and the
resolution spec, stopping at the first error. -/
def setting_profile_loop :
    List XmlNode → devcaps_source → Option String × devcaps_source
  | [], src => (none, src)
  | node :: rest, src =>
    if node.name = "scan:ColorModes" then
      setting_profile_loop rest (devcaps_source_parse_color_modes node.children src)
    else if node.name = "scan:DocumentFormats" then
      setting_profile_loop rest (devcaps_source_parse_document_formats node.children src)
    else if node.name = "scan:SupportedResolutions" then
      match devcaps_source_parse_resolutions node.children src with
      | (some e, src') => (some e, src')
      | (none, src') => setting_profile_loop rest src'
    else
      setting_profile_loop rest src

/-- `devcaps_source_parse_setting_profiles`: loop over the
`scan:SettingProfile` children, stopping at the first error. -/
def devcaps_source_parse_setting_profiles :
    List XmlNode → devcaps_source → Option String × devcaps_source
  | [], src => (none, src)
  | node :: rest, src =>
    if node.name = "scan:SettingProfile" then
      match setting_profile_loop node.children src with
      | (some e, src') => (some e, src')
      | (none, src') => devcaps_source_parse_setting_profiles rest src'
    else
      devcaps_source_parse_setting_profiles rest src

/-- Field-reading loop of `devcaps_source_parse`: `scan:MinWidth`,
`scan:MaxWidth`, `scan:MinHeight`, `scan:MaxHeight` as unsigned integers and
the `scan:SettingProfiles` blocks, stopping at the first error. -/
def source_loop : List XmlNode → devcaps_source → Option String × devcaps_source
  | [], src => (none, src)
  | node :: rest, src =>
    if node.name = "scan:MinWidth" then
      match xml_iter_node_value_uint node.value with
      | .ok v => source_loop rest { src with min_width := v }
      | .error e => (some e, src)
    else if node.name = "scan:MaxWidth" then
      match xml_iter_node_value_uint node.value with
      | .ok v => source_loop rest { src with max_width := v }
      | .error e => (some e, src)
    else if node.name = "scan:MinHeight" then
      match xml_iter_node_value_uint node.value with
      | .ok v => source_loop rest { src with min_height := v }
      | .error e => (some e, src)
    else if node.name = "scan:MaxHeight" then
      match xml_iter_node_value_uint node.value with
      | .ok v => source_loop rest { src with max_height := v }
      | .error e => (some e, src)
    else if node.name = "scan:SettingProfiles" then
      match devcaps_source_parse_setting_profiles node.children src with
      | (some e, src') => (some e, src')
      | (none, src') => source_loop rest src'
    else
      source_loop rest src

/-- `SANE_FIX((double) pixels * 25.4 / 300)`: the pixel-to-millimeter
conversion at the fixed 300 dpi reference, in SANE's 16.16 fixed-point
representation.  Modelled exactly in rational arithmetic
(`25.4 = 254 / 10`, `SANE_FIX` scales by `65536` and truncates); the double
rounding of the C expression is not modelled. -/
def sane_fix_mm (pixels : Nat) : Nat :=
  pixels * 254 * 65536 / 3000

/-- `devcaps_source_parse`: parse one input-source block into a fresh
`devcaps_source`; on success, validate the window size when both max bounds
are non-zero (requiring `min < max` strictly for width and height, then
deriving the physical window ranges and setting the size flag); store the
result in `out` only when `out` is still empty (a later duplicate is parsed
and then discarded); on error, `out` is left unchanged. -/
def devcaps_source_parse
    (children : List XmlNode) (out : Option devcaps_source) :
    Option String × Option devcaps_source :=
  let r := source_loop children devcaps_source_new
  match r.1 with
  | some e => (some e, out)
  | none =>
    let src := r.2
    if src.max_width ≠ 0 ∧ src.max_height ≠ 0 then
      if src.min_width ≥ src.max_width then
        (some "Invalid scan:MinWidth or scan:MaxWidth", out)
      else if src.min_height ≥ src.max_height then
        (some "Invalid scan:MinHeight or scan:MaxHeight", out)
      else
        let src :=
          { src with
            flags := { src.flags with has_size := true }
            win_x_range := ⟨sane_fix_mm src.min_width, sane_fix_mm src.max_width, 0⟩
            win_y_range := ⟨sane_fix_mm src.min_height, sane_fix_mm src.max_height, 0⟩ }
        match out with
        | none => (none, some src)
        | some prev => (none, some prev)
    else
      match out with
      | none => (none, some src)
      | some prev => (none, some prev)

/-- Modelled from the spec: the source-kind identifiers
(`OPTVAL_SOURCE_PLATEN` etc. come from `airscan.h`, not under `src/`); their
exact text is opaque to this development. -/
def OPTVAL_SOURCE_PLATEN : String := "Flatbed"

/-- Modelled from the spec: the ADF-simplex source-kind identifier. -/
def OPTVAL_SOURCE_ADF_SIMPLEX : String := "ADF"

/-- Modelled from the spec: the ADF-duplex source-kind identifier. -/
def OPTVAL_SOURCE_ADF_DUPLEX : String := "ADF Duplex"

/-- The `scan:Platen` branch of `devcaps_parse`: enter the block and, if the
FIRST child is `scan:PlatenInputCaps`, parse it (only the first child is
examined — the C code does not loop here). -/
def platen_branch (children : List XmlNode) (out : Option devcaps_source) :
    Option String × Option devcaps_source :=
  match children with
  | [] => (none, out)
  | node :: _ =>
    if node.name = "scan:PlatenInputCaps" then
      devcaps_source_parse node.children out
    else
      (none, out)

/-- The `scan:Adf` branch of `devcaps_parse`: the `while` loop over the ADF
children.  As in the C code the loop condition does NOT test the error, so a
later `AdfDuplexInputCaps` parse overwrites the error of an earlier
`AdfSimplexInputCaps` parse (and vice versa). -/
def adf_loop :
    List XmlNode → Option String → Option devcaps_source → Option devcaps_source →
    Option String × Option devcaps_source × Option devcaps_source
  | [], err, simplex, duplex => (err, simplex, duplex)
  | node :: rest, err, simplex, duplex =>
    if node.name = "scan:AdfSimplexInputCaps" then
      match devcaps_source_parse node.children simplex with
      | (err', simplex') => adf_loop rest err' simplex' duplex
    else if node.name = "scan:AdfDuplexInputCaps" then
      match devcaps_source_parse node.children duplex with
      | (err', duplex') => adf_loop rest err' simplex duplex'
    else
      adf_loop rest err simplex duplex

/-- Main loop of `devcaps_parse` over the children of
`scan:ScannerCapabilities`: captures the model / make-and-model strings
(last occurrence wins), dispatches the `scan:Platen` and `scan:Adf` blocks,
and aborts at the first error.  Returns
`(error, caps, model, make_and_model)`. -/
def top_loop :
    List XmlNode → devcaps → Option String → Option String →
    Option String × devcaps × Option String × Option String
  | [], caps, model, make_and_model => (none, caps, model, make_and_model)
  | node :: rest, caps, model, make_and_model =>
    if node.name = "pwg:ModelName" then
      top_loop rest caps (some node.value) make_and_model
    else if node.name = "pwg:MakeAndModel" then
      top_loop rest caps model (some node.value)
    else if node.name = "scan:Platen" then
      match platen_branch node.children caps.src_platen with
      | (some e, platen') =>
        (some e, { caps with src_platen := platen' }, model, make_and_model)
      | (none, platen') =>
        top_loop rest { caps with src_platen := platen' } model make_and_model
    else if node.name = "scan:Adf" then
      match adf_loop node.children none caps.src_adf_simplex caps.src_adf_duplex with
      | (some e, simplex', duplex') =>
        (some e, { caps with src_adf_simplex := simplex', src_adf_duplex := duplex' },
         model, make_and_model)
      | (none, simplex', duplex') =>
        top_loop rest { caps with src_adf_simplex := simplex', src_adf_duplex := duplex' }
          model make_and_model
    else
      top_loop rest caps model make_and_model

/-- `g_strchomp`: remove trailing whitespace (ASCII space, tab, newline,
vertical tab, form feed, carriage return). -/
def g_strchomp (s : String) : String :=
  String.mk ((s.data.reverse.dropWhile (fun c =>
    c = ' ' ∨ c = '\t' ∨ c = '\n' ∨ c = '\x0b' ∨ c = '\x0c' ∨ c = '\r')).reverse)

/-- The "save model, try to guess vendor" tail of `devcaps_parse`: if the
model string is non-empty, the make-and-model string is strictly longer and
ends with the model string, the vendor is the make-and-model string with the
model suffix removed and trailing whitespace chomped; a still-unset vendor
defaults to "Unknown"; the model field takes the model string, else the
make-and-model string.  (`strlen`/`g_strndup` count bytes; here they are
modelled as character counts, which agree on ASCII.) -/
def derive_vendor_model
    (caps : devcaps) (model make_and_model : Option String) : devcaps :=
  let model_len := (model.getD "").length
  let mm_len := (make_and_model.getD "").length
  let guessed := g_strchomp (g_strndup (make_and_model.getD "") (mm_len - model_len))
  let caps :=
    if model_len ≠ 0 ∧ mm_len > model_len ∧
        g_str_has_suffix (make_and_model.getD "") (model.getD "") = true then
      { caps with vendor := some guessed }
    else caps
  let caps :=
    if caps.vendor = none then { caps with vendor := some "Unknown" } else caps
  match model with
  | some m => { caps with model := some m }
  | none =>
    match make_and_model with
    | some a => { caps with model := some a }
    | none => caps

/-- The "update list of sources" tail of `devcaps_parse`: append the
identifier of each present source, in the fixed order Platen, ADF-Simplex,
ADF-Duplex. -/
def update_sources (caps : devcaps) : devcaps :=
  let s := caps.sources
  let s := if caps.src_platen.isSome then s ++ [OPTVAL_SOURCE_PLATEN] else s
  let s := if caps.src_adf_simplex.isSome then s ++ [OPTVAL_SOURCE_ADF_SIMPLEX] else s
  let s := if caps.src_adf_duplex.isSome then s ++ [OPTVAL_SOURCE_ADF_DUPLEX] else s
  { caps with sources := s }

/-- `devcaps_parse`: parse the device capabilities document into an
initialized `caps`.  The root must be `scan:ScannerCapabilities`; any error
anywhere resets `caps` (`devcaps_reset`) before returning, so the caller
never observes a half-built document. -/
def devcaps_parse (caps : devcaps) (xml : XmlNode) : Option String × devcaps :=
  if xml.name = "scan:ScannerCapabilities" then
    match top_loop xml.children caps none none with
    | (some e, caps', _, _) => (some e, devcaps_reset caps')
    | (none, caps', model, make_and_model) =>
      (none, update_sources (derive_vendor_model caps' model make_and_model))
  else
    (some "XML: missed scan:ScannerCapabilities", devcaps_reset caps)

/-! ### Concrete test documents -/

/-- An element with children and empty text. -/
def xnode (n : String) (c : List XmlNode) : XmlNode := XmlNode.mk n "" c

/-- A leaf element carrying a text value. -/
def xleaf (n v : String) : XmlNode := XmlNode.mk n v []

/-- A `scan:SettingProfiles` block providing one square discrete resolution
with the given text value. -/
def resolutionsOK (v : String) : XmlNode :=
  xnode "scan:SettingProfiles" [xnode "scan:SettingProfile"
    [xnode "scan:SupportedResolutions"
      [xnode "scan:DiscreteResolutions" [xnode "scan:DiscreteResolution"
        [xleaf "scan:XResolution" v, xleaf "scan:YResolution" v]]]]]

/-- A valid `scan:Platen` block whose source offers one discrete
resolution `v`. -/
def platenBlock (v : String) : XmlNode :=
  xnode "scan:Platen" [xnode "scan:PlatenInputCaps" [resolutionsOK v]]

/-- A `scan:Platen` block whose source has a `scan:SupportedResolutions`
subtree that yields neither discrete values nor a range. -/
def platenNoRes : XmlNode :=
  xnode "scan:Platen" [xnode "scan:PlatenInputCaps"
    [xnode "scan:SettingProfiles" [xnode "scan:SettingProfile"
      [xnode "scan:SupportedResolutions" []]]]]

/-- A capabilities document with no children at all. -/
def docEmptyCaps : XmlNode := xnode "scan:ScannerCapabilities" []

/-- A document whose platen source has `MinWidth 5 ≥ MaxWidth 3` but no
height bounds. -/
def docWidthBug : XmlNode :=
  xnode "scan:ScannerCapabilities" [xnode "scan:Platen"
    [xnode "scan:PlatenInputCaps"
      [xleaf "scan:MinWidth" "5", xleaf "scan:MaxWidth" "3", resolutionsOK "300"]]]

/-- A document with an empty model name and a non-empty make-and-model. -/
def docVendorEmptyModel : XmlNode :=
  xnode "scan:ScannerCapabilities"
    [xleaf "pwg:ModelName" "", xleaf "pwg:MakeAndModel" "Acme"]

/-- Root children giving model "Model X" and make-and-model "Acme Model X". -/
def chVendorAcme : List XmlNode :=
  [xleaf "pwg:ModelName" "Model X", xleaf "pwg:MakeAndModel" "Acme Model X"]

/-- Two platen blocks of the same kind: a valid first one and an invalid
(resolution-less) second one. -/
def docDupBad : XmlNode :=
  xnode "scan:ScannerCapabilities" [platenBlock "300", platenNoRes]

/-- Two valid platen blocks of the same kind with different resolutions. -/
def docDupGood : XmlNode :=
  xnode "scan:ScannerCapabilities" [platenBlock "300", platenBlock "600"]

/-- Only the first of the two duplicate platen blocks. -/
def docDupFirst : XmlNode :=
  xnode "scan:ScannerCapabilities" [platenBlock "300"]

/-- Only the second of the two duplicate platen blocks. -/
def docDupSecond : XmlNode :=
  xnode "scan:ScannerCapabilities" [platenBlock "600"]

/-- A valid platen source followed by an ADF-simplex source whose
`scan:SupportedResolutions` subtree is empty. -/
def docNoRes : XmlNode :=
  xnode "scan:ScannerCapabilities"
    [platenBlock "300",
     xnode "scan:Adf" [xnode "scan:AdfSimplexInputCaps"
       [xnode "scan:SettingProfiles" [xnode "scan:SettingProfile"
         [xnode "scan:SupportedResolutions" []]]]]]

/-- A `scan:ResolutionRange` subtree whose YResolution range {300,400}
differs from its XResolution range {100,200}. -/
def rangeXY400 : List XmlNode :=
  [xnode "scan:XResolution" [xleaf "scan:Min" "100", xleaf "scan:Max" "200"],
   xnode "scan:YResolution" [xleaf "scan:Min" "300", xleaf "scan:Max" "400"]]

/-- A `scan:SupportedResolutions` subtree providing both a non-empty
discrete list and a valid (mergeable) resolution range. -/
def bothResChildren : List XmlNode :=
  [xnode "scan:DiscreteResolutions" [xnode "scan:DiscreteResolution"
     [xleaf "scan:XResolution" "300", xleaf "scan:YResolution" "300"]],
   xnode "scan:ResolutionRange" [xnode "scan:XResolution"
     [xleaf "scan:Min" "0", xleaf "scan:Max" "600"]]]

/-- A source with the discrete flag set and resolutions {75, 150, 300}. -/
def src75 : devcaps_source :=
  { devcaps_source_new with
    flags := { DevcapsFlags.empty with res_discrete := true }
    resolutions := [75, 150, 300] }

/-- Source children with both width bounds inverted and a max height. -/
def chSizeW : List XmlNode :=
  [xleaf "scan:MinWidth" "5", xleaf "scan:MaxWidth" "3", xleaf "scan:MaxHeight" "10"]

/-- A top-level `scan:Platen` block whose single `scan:PlatenInputCaps`
child has the given source children. -/
def platen_wrap (srcCh : List XmlNode) : XmlNode :=
  XmlNode.mk "scan:Platen" "" [XmlNode.mk "scan:PlatenInputCaps" "" srcCh]

/-- A valid `scan:AdfSimplexInputCaps` block with one discrete resolution. -/
def adfSimplexGood (v : String) : XmlNode :=
  XmlNode.mk "scan:AdfSimplexInputCaps" "" [resolutionsOK v]

/-- Source children whose `scan:SupportedResolutions` subtree is empty
(yields neither discrete values nor a range). -/
def badResChildren : List XmlNode :=
  [xnode "scan:SettingProfiles" [xnode "scan:SettingProfile"
    [xnode "scan:SupportedResolutions" []]]]

/-- An ADF-simplex block with a resolution-less source. -/
def adfSimplexBadRes : XmlNode :=
  XmlNode.mk "scan:AdfSimplexInputCaps" "" badResChildren

/-- An ADF block whose first simplex child fails (no resolutions) and whose
second simplex child parses successfully: the `scan:Adf` while-loop does not
stop on error, so the second parse overwrites the first one's error. -/
def docResSwallow : XmlNode :=
  xnode "scan:ScannerCapabilities"
    [xnode "scan:Adf" [adfSimplexBadRes, adfSimplexGood "300"]]

/-- An ADF-simplex block with inverted width bounds (and a max height). -/
def adfSimplexBadSize : XmlNode :=
  XmlNode.mk "scan:AdfSimplexInputCaps" "" chSizeW

/-- An ADF block whose first simplex child fails size validation and whose
second simplex child parses successfully, swallowing the error. -/
def docSizeSwallow : XmlNode :=
  xnode "scan:ScannerCapabilities"
    [xnode "scan:Adf" [adfSimplexBadSize, adfSimplexGood "300"]]

/-- Three ADF-simplex duplicates: a valid first (retained), an invalid
second (its error is set), a valid third (whose success overwrites the
error, so the document parse succeeds). -/
def docDupSwallow : XmlNode :=
  xnode "scan:ScannerCapabilities"
    [xnode "scan:Adf" [adfSimplexGood "300", adfSimplexBadRes, adfSimplexGood "600"]]

/-- Only the first of the three ADF-simplex duplicates. -/
def docDupAdfFirst : XmlNode :=
  xnode "scan:ScannerCapabilities" [xnode "scan:Adf" [adfSimplexGood "300"]]

/-! ### Helper lemmas -/

/-- The unsigned-integer reader only ever produces one error message. -/
theorem xml_uint_error_msg (s e : String)
    (h : xml_iter_node_value_uint s = .error e) :
    e = "XML: invalid unsigned integer value" := by
  unfold xml_iter_node_value_uint at h
  split at h
  · exact absurd h (by simp)
  · exact (Except.error.inj h).symm

/-- Any error of `range_subloop` is a unsigned-integer-parse error. -/
theorem range_subloop_err (children : List XmlNode) (range : SANE_Range) :
    (range_subloop children range).1 = none ∨
    (range_subloop children range).1 = some "XML: invalid unsigned integer value" := by
  induction children generalizing range with
  | nil => left; rfl
  | cons node rest ih =>
    simp only [range_subloop]
    split
    · split
      · exact ih _
      · rename_i e he
        right
        show some e = _
        rw [xml_uint_error_msg node.value e he]
    · split
      · split
        · exact ih _
        · rename_i e he
          right
          show some e = _
          rw [xml_uint_error_msg node.value e he]
      · split
        · split
          · exact ih _
          · rename_i e he
            right
            show some e = _
            rw [xml_uint_error_msg node.value e he]
        · exact ih _

/-- The Y range is never written by the range-resolution loop: both
tag-match branches test the X tag name, so the second branch is dead. -/
theorem range_outer_loop_preserves_y
    (children : List XmlNode) (rx ry : SANE_Range) :
    (range_outer_loop children rx ry).2.2 = ry := by
  induction children generalizing rx with
  | nil => rfl
  | cons node rest ih =>
    simp only [range_outer_loop]
    split
    · split
      · rfl
      · exact ih _
    · exact ih _

/-- Any error of the range-resolution loop is a unsigned-integer-parse
error. -/
theorem range_outer_loop_err (children : List XmlNode) (rx ry : SANE_Range) :
    (range_outer_loop children rx ry).1 = none ∨
    (range_outer_loop children rx ry).1 = some "XML: invalid unsigned integer value" := by
  induction children generalizing rx ry with
  | nil => left; rfl
  | cons node rest ih =>
    simp only [range_outer_loop]
    split
    · split
      · rename_i e rx' hsub
        right
        show some e = _
        rcases range_subloop_err node.children rx with h | h
        · rw [hsub] at h; exact absurd h (by simp)
        · rw [hsub] at h; simpa using h
      · exact ih _ _
    · exact ih _ _

/-- When the source parse of a `scan:Platen` block at the head of the child
list fails, the main loop returns that error immediately (the error check
follows each top-level child, so no later child can overwrite it). -/
theorem top_loop_platen_head_err
    (srcCh rest : List XmlNode) (caps : devcaps) (m mm : Option String) (e : String)
    (h : (devcaps_source_parse srcCh caps.src_platen).1 = some e) :
    (top_loop (platen_wrap srcCh :: rest) caps m mm).1 = some e := by
  have hpb : platen_branch (platen_wrap srcCh).children caps.src_platen =
      devcaps_source_parse srcCh caps.src_platen := rfl
  simp only [top_loop]
  dsimp only [platen_wrap, XmlNode.name, XmlNode.children] at hpb ⊢
  rw [if_neg (by decide), if_neg (by decide), if_pos (by rfl)]
  rcases hsp : devcaps_source_parse srcCh caps.src_platen with ⟨err0, out0⟩
  rw [hsp] at h hpb
  dsimp only at h
  subst h
  rw [hpb]

/-- When the source parse of a `scan:Platen` block at the head of the child
list succeeds, the main loop stores the result and continues with the rest
of the children. -/
theorem top_loop_platen_head_ok
    (srcCh rest : List XmlNode) (caps : devcaps) (m mm : Option String)
    (out' : Option devcaps_source)
    (h : devcaps_source_parse srcCh caps.src_platen = (none, out')) :
    top_loop (platen_wrap srcCh :: rest) caps m mm =
      top_loop rest { caps with src_platen := out' } m mm := by
  have hpb : platen_branch (platen_wrap srcCh).children caps.src_platen =
      devcaps_source_parse srcCh caps.src_platen := rfl
  simp only [top_loop]
  dsimp only [platen_wrap, XmlNode.name, XmlNode.children] at hpb ⊢
  rw [if_neg (by decide), if_neg (by decide), if_pos (by rfl)]
  rw [hpb, h]

/-- An error of the main loop makes `devcaps_parse` fail the whole document
and reset the caps. -/
theorem devcaps_parse_err_of_top_loop
    (ch : List XmlNode) (caps : devcaps) (e : String)
    (h : (top_loop ch caps none none).1 = some e) :
    devcaps_parse caps (XmlNode.mk "scan:ScannerCapabilities" "" ch) =
      (some e, devcaps_empty) := by
  unfold devcaps_parse
  rw [if_pos (by rfl)]
  dsimp only [XmlNode.children]
  rcases htop : top_loop ch caps none none with ⟨err, caps0, m0, mm0⟩
  rw [htop] at h
  dsimp only at h
  subst h
  rfl

/-! ### Claim theorems -/

/-- C10: in `devcaps_source_parse_resolutions_range`, the Y-axis range
variable is never written (both tag-match branches test the X tag name), so
it keeps its initial value `{0, 0, 0}`; consequently the Y-axis validation
`min > max` is always false and the "Invalid scan:YResolution range" error
is unreachable. -/
theorem range_y_never_written :
    (∀ (children : List XmlNode) (rx ry : SANE_Range),
      (range_outer_loop children rx ry).2.2 = ry) ∧
    (∀ (children : List XmlNode) (src : devcaps_source),
      (devcaps_source_parse_resolutions_range children src).1 ≠
        some "Invalid scan:YResolution range") := by
  refine ⟨range_outer_loop_preserves_y, ?_⟩
  intro children src
  have hy := range_outer_loop_preserves_y children ⟨0, 0, 0⟩ ⟨0, 0, 0⟩
  have herr := range_outer_loop_err children ⟨0, 0, 0⟩ ⟨0, 0, 0⟩
  unfold devcaps_source_parse_resolutions_range
  dsimp only
  rw [hy]
  split
  · simp
  · split
    · rename_i hcond
      exact absurd hcond (by decide)
    · split
      · simp
      · rcases herr with h | h <;> rw [h] <;> simp

/-- C1: the claim states that the Y sub-range of the range-resolution parser
is filled from the nested Min/Max of the YResolution element, so a document
whose YResolution range {300, 400} differs from its XResolution range
{100, 200} would produce a parsed Y range {300, 400, 0}.  Evaluating the
code on that document: the X range is read, but the Y range keeps its
initial value {0, 0, 0} — the YResolution element is ignored. -/
theorem devcaps_range_bug_y_ignored :
    (range_outer_loop rangeXY400 ⟨0, 0, 0⟩ ⟨0, 0, 0⟩).2.1 = ⟨100, 200, 0⟩ ∧
    (range_outer_loop rangeXY400 ⟨0, 0, 0⟩ ⟨0, 0, 0⟩).2.2 = ⟨0, 0, 0⟩ ∧
    ((⟨0, 0, 0⟩ : SANE_Range) ≠ ⟨300, 400, 0⟩) := by
  decide

/-- Invariant of the resolution-selection scan (`choose_step` fold) over a
sorted tail whose elements all dominate the initial candidate: the final
delta matches the final candidate, the candidate is the initial one or a
list element, the final delta is minimal, and on equal delta the candidate
dominates every tied element (the scan keeps the LAST best, so for a sorted
list ties resolve to the larger value). -/
theorem choose_fold_spec (w : Int) (l : List Nat) :
    l.Sorted (· ≤ ·) →
    ∀ res : Nat, (∀ r ∈ l, res ≤ r) →
    (l.foldl (choose_step w) (Int.ofNat res, (w - Int.ofNat res).natAbs)).2 =
      (w - (l.foldl (choose_step w) (Int.ofNat res, (w - Int.ofNat res).natAbs)).1).natAbs ∧
    ((l.foldl (choose_step w) (Int.ofNat res, (w - Int.ofNat res).natAbs)).1 = Int.ofNat res ∨
      ∃ r ∈ l, (l.foldl (choose_step w) (Int.ofNat res, (w - Int.ofNat res).natAbs)).1 = Int.ofNat r) ∧
    (l.foldl (choose_step w) (Int.ofNat res, (w - Int.ofNat res).natAbs)).2 ≤
      (w - Int.ofNat res).natAbs ∧
    (∀ r ∈ l, (l.foldl (choose_step w) (Int.ofNat res, (w - Int.ofNat res).natAbs)).2 ≤
      (w - Int.ofNat r).natAbs) ∧
    (∀ r ∈ l, (w - Int.ofNat r).natAbs =
        (l.foldl (choose_step w) (Int.ofNat res, (w - Int.ofNat res).natAbs)).2 →
      Int.ofNat r ≤ (l.foldl (choose_step w) (Int.ofNat res, (w - Int.ofNat res).natAbs)).1) ∧
    ((w - Int.ofNat res).natAbs =
        (l.foldl (choose_step w) (Int.ofNat res, (w - Int.ofNat res).natAbs)).2 →
      Int.ofNat res ≤ (l.foldl (choose_step w) (Int.ofNat res, (w - Int.ofNat res).natAbs)).1) := by
  induction l with
  | nil =>
    intro _ res _
    refine ⟨rfl, Or.inl rfl, le_refl _, ?_, ?_, ?_⟩ <;> simp
  | cons a t ih =>
    intro hsorted res hdom
    rw [List.sorted_cons] at hsorted
    obtain ⟨hat, hts⟩ := hsorted
    have hra : res ≤ a := hdom a (List.mem_cons_self a t)
    simp only [List.foldl_cons]
    by_cases hle : (w - Int.ofNat a).natAbs ≤ (w - Int.ofNat res).natAbs
    · have hstep : choose_step w (Int.ofNat res, (w - Int.ofNat res).natAbs) a =
          (Int.ofNat a, (w - Int.ofNat a).natAbs) := by
        unfold choose_step
        dsimp only
        rw [if_pos hle]
      rw [hstep]
      obtain ⟨h1, h2, h3, h4, h5, h6⟩ := ih hts a hat
      refine ⟨h1, ?_, ?_, ?_, ?_, ?_⟩
      · rcases h2 with h | ⟨r, hr, hr2⟩
        · exact Or.inr ⟨a, List.mem_cons_self a t, h⟩
        · exact Or.inr ⟨r, List.mem_cons_of_mem a hr, hr2⟩
      · exact le_trans h3 hle
      · intro r hr
        rcases List.mem_cons.mp hr with h | h
        · subst h; exact h3
        · exact h4 r h
      · intro r hr heq
        rcases List.mem_cons.mp hr with h | h
        · subst h; exact h6 heq
        · exact h5 r h heq
      · intro heq
        have haeq : (w - Int.ofNat a).natAbs =
            (t.foldl (choose_step w) (Int.ofNat a, (w - Int.ofNat a).natAbs)).2 :=
          le_antisymm (heq ▸ hle) h3
        exact le_trans (Int.ofNat_le.mpr hra) (h6 haeq)
    · have hstep : choose_step w (Int.ofNat res, (w - Int.ofNat res).natAbs) a =
          (Int.ofNat res, (w - Int.ofNat res).natAbs) := by
        unfold choose_step
        dsimp only
        rw [if_neg hle]
      rw [hstep]
      have hdt : ∀ r ∈ t, res ≤ r := fun r hr => le_trans hra (hat r hr)
      obtain ⟨h1, h2, h3, h4, h5, h6⟩ := ih hts res hdt
      refine ⟨h1, ?_, h3, ?_, ?_, h6⟩
      · rcases h2 with h | ⟨r, hr, hr2⟩
        · exact Or.inl h
        · exact Or.inr ⟨r, List.mem_cons_of_mem a hr, hr2⟩
      · intro r hr
        rcases List.mem_cons.mp hr with h | h
        · subst h
          exact le_trans h3 (le_of_lt (Nat.lt_of_not_le hle))
        · exact h4 r h
      · intro r hr heq
        rcases List.mem_cons.mp hr with h | h
        · subst h
          exact absurd (le_trans (le_of_eq heq) h3) hle
        · exact h5 r h heq

/-- C2: the claim states that on ties (equal absolute difference) the
selection returns the smaller of the two tied candidates, so that for
stored values {75, 150, 300} a request of 225 yields 150.  Evaluating the
code: the scan updates on `delta2 <= delta`, so the later (larger) tied
value wins and the request 225 yields 300, not 150. -/
theorem choose_resolution_tie_counterexample :
    devcaps_source_choose_resolution src75 225 = 300 ∧
    devcaps_source_choose_resolution src75 225 ≠ 150 := by
  decide

/-- C2 (amended): for every source with the discrete flag set and a
non-empty ascending-sorted value list, `devcaps_source_choose_resolution`
returns a stored value minimizing the absolute difference from the request,
and when two stored values are tied at equal absolute difference it returns
the LARGER (later-scanned) of the tied candidates; for values {75, 150, 300}
request 290 yields 300, request 1 yields 75, and request 225 yields 300. -/
theorem choose_resolution_nearest_amended :
    (∀ (src : devcaps_source) (w : Int),
      src.flags.res_discrete = true →
      src.resolutions.Sorted (· ≤ ·) →
      src.resolutions ≠ [] →
      (∃ r ∈ src.resolutions,
        devcaps_source_choose_resolution src w = Int.ofNat r) ∧
      (∀ r ∈ src.resolutions,
        (w - devcaps_source_choose_resolution src w).natAbs ≤ (w - Int.ofNat r).natAbs) ∧
      (∀ r ∈ src.resolutions,
        (w - Int.ofNat r).natAbs = (w - devcaps_source_choose_resolution src w).natAbs →
        Int.ofNat r ≤ devcaps_source_choose_resolution src w)) ∧
    devcaps_source_choose_resolution src75 290 = 300 ∧
    devcaps_source_choose_resolution src75 1 = 75 ∧
    devcaps_source_choose_resolution src75 225 = 300 := by
  refine ⟨?_, by decide, by decide, by decide⟩
  intro src w hflag hsorted hne
  rcases hres : src.resolutions with _ | ⟨r0, rest⟩
  · exact absurd hres hne
  · have hchoose : devcaps_source_choose_resolution src w =
        (rest.foldl (choose_step w) (Int.ofNat r0, (w - Int.ofNat r0).natAbs)).1 := by
      unfold devcaps_source_choose_resolution
      rw [hflag, hres]
      rfl
    rw [hres] at hsorted
    rw [List.sorted_cons] at hsorted
    obtain ⟨hr0, hrest⟩ := hsorted
    obtain ⟨h1, h2, h3, h4, h5, h6⟩ := choose_fold_spec w rest hrest r0 hr0
    rw [hchoose]
    refine ⟨?_, ?_, ?_⟩
    · rcases h2 with h | ⟨r, hr, hr2⟩
      · exact ⟨r0, List.mem_cons_self r0 rest, h⟩
      · exact ⟨r, List.mem_cons_of_mem r0 hr, hr2⟩
    · intro r hr
      rw [← h1]
      rcases List.mem_cons.mp hr with h | h
      · subst h; exact h3
      · exact h4 r h
    · intro r hr heq
      rw [← h1] at heq
      rcases List.mem_cons.mp hr with h | h
      · subst h; exact h6 heq
      · exact h5 r h heq

/-- C2 amended, witness: the selection on the {75, 150, 300} source at
request 5 returns a stored value. -/
theorem choose_resolution_nearest_amended_witness :
    ∃ r ∈ src75.resolutions,
      devcaps_source_choose_resolution src75 5 = Int.ofNat r :=
  (choose_resolution_nearest_amended.1 src75 5 rfl (by decide) (by decide)).1

/-- C5: for every input document and every error path, if `devcaps_parse`
returns an error then the caps structure is reset to empty before it
returns: no vendor, model, sources list or source capability survives a
failed parse. -/
theorem parse_error_resets_caps :
    ∀ (caps : devcaps) (xml : XmlNode) (e : String),
      (devcaps_parse caps xml).1 = some e →
      (devcaps_parse caps xml).2 = devcaps_empty := by
  intro caps xml e h
  unfold devcaps_parse at h ⊢
  by_cases hname : xml.name = "scan:ScannerCapabilities"
  · rw [if_pos hname] at h ⊢
    rcases htop : top_loop xml.children caps none none with ⟨err, caps', m, mm⟩
    cases err
    · rw [htop] at h
      exact Option.noConfusion h
    · rfl
  · rw [if_neg hname]
    rfl

/-- C5, witness: a document with the wrong root tag fails and leaves the
caps structure empty. -/
theorem parse_error_resets_caps_witness :
    (devcaps_parse devcaps_empty (XmlNode.mk "wrong" "" [])).2 = devcaps_empty :=
  parse_error_resets_caps devcaps_empty (XmlNode.mk "wrong" "" [])
    "XML: missed scan:ScannerCapabilities" rfl

/-- C6: after `devcaps_source_parse_resolutions`, the discrete and range
markings are mutually exclusive: if the dispatch loop produced both
markings, the discrete one is retained and the range one cleared, and the
returned source never carries both flags. -/
theorem resolutions_flags_mutually_exclusive :
    ∀ (children : List XmlNode) (src : devcaps_source),
      ((resolutions_loop children src).2.flags.res_discrete = true ∧
        (resolutions_loop children src).2.flags.res_range = true →
        (devcaps_source_parse_resolutions children src).2.flags.res_discrete = true ∧
        (devcaps_source_parse_resolutions children src).2.flags.res_range = false) ∧
      ¬((devcaps_source_parse_resolutions children src).2.flags.res_discrete = true ∧
        (devcaps_source_parse_resolutions children src).2.flags.res_range = true) := by
  intro children src
  unfold devcaps_source_parse_resolutions
  dsimp only
  by_cases hd : (resolutions_loop children src).2.flags.res_discrete = true
  · rw [if_pos hd]
    constructor
    · intro _
      exact ⟨hd, rfl⟩
    · intro hboth
      exact Bool.noConfusion hboth.2
  · rw [if_neg hd]
    constructor
    · intro hboth
      exact absurd hboth.1 hd
    · intro hboth
      exact absurd hboth.1 hd

/-- C6, witness: on a subtree providing both a discrete list and a valid
range, the result keeps the discrete flag and drops the range flag. -/
theorem resolutions_flags_mutually_exclusive_witness :
    (devcaps_source_parse_resolutions bothResChildren devcaps_source_new).2.flags.res_discrete
        = true ∧
    (devcaps_source_parse_resolutions bothResChildren devcaps_source_new).2.flags.res_range
        = false :=
  (resolutions_flags_mutually_exclusive bothResChildren devcaps_source_new).1
    ⟨by decide, by decide⟩

/-- C7 (amended): a `scan:SupportedResolutions` subtree that yields neither
a non-empty discrete list nor a valid merged range makes the resolution
parser fail with "Source resolutions are not defined".  The error aborts
the whole document parse when it reaches the top-level loop: any document
whose first child is a `scan:Platen` block with such a source fails
entirely, whatever follows, and concretely a resolution-less ADF source
discards a document even when an earlier platen source parsed
successfully.  (Inside one `scan:Adf` block the error can instead be
overwritten by a later sibling — see the counterexample.) -/
theorem resolutions_not_defined_error :
    (∀ (children : List XmlNode) (src : devcaps_source),
      (devcaps_source_parse_resolutions children src).2.flags.res_discrete = false →
      (devcaps_source_parse_resolutions children src).2.flags.res_range = false →
      (devcaps_source_parse_resolutions children src).1 =
        some "Source resolutions are not defined") ∧
    (∀ (srcCh rest : List XmlNode),
      (devcaps_source_parse srcCh none).1 = some "Source resolutions are not defined" →
      devcaps_parse devcaps_empty
          (XmlNode.mk "scan:ScannerCapabilities" "" (platen_wrap srcCh :: rest)) =
        (some "Source resolutions are not defined", devcaps_empty)) ∧
    ((devcaps_parse devcaps_empty docNoRes).1 = some "Source resolutions are not defined" ∧
      (devcaps_parse devcaps_empty docNoRes).2 = devcaps_empty) := by
  refine ⟨?_, ?_, by decide, by decide⟩
  · intro children src hd hr
    unfold devcaps_source_parse_resolutions at hd hr ⊢
    dsimp only at hd hr ⊢
    by_cases hmid : (resolutions_loop children src).2.flags.res_discrete = true
    · rw [if_pos hmid] at hd
      exact Bool.noConfusion (hmid.symm.trans hd)
    · rw [if_neg hmid] at hd hr ⊢
      rw [if_pos (by simp [hd, hr])]
  · intro srcCh rest h
    exact devcaps_parse_err_of_top_loop _ _ _
      (top_loop_platen_head_err srcCh rest devcaps_empty none none _ h)

/-- C7: the claim states that the "resolutions are not defined" error always
aborts the whole document parse, so that no document is returned.  On a
document whose `scan:Adf` block has a resolution-less first simplex child
and a valid second simplex child, the first child's parse does fail with
that error, but the `scan:Adf` while-loop does not stop on error: the
second child's successful parse overwrites it, and a document (with an ADF
source) IS returned. -/
theorem resolutions_error_swallowed_counterexample :
    (devcaps_source_parse badResChildren none).1 =
      some "Source resolutions are not defined" ∧
    (devcaps_parse devcaps_empty docResSwallow).1 = none ∧
    (devcaps_parse devcaps_empty docResSwallow).2.src_adf_simplex ≠ none := by
  decide

/-- C7, witness: an empty `scan:SupportedResolutions` subtree produces the
"resolutions are not defined" error. -/
theorem resolutions_not_defined_error_witness :
    (devcaps_source_parse_resolutions [] devcaps_source_new).1 =
      some "Source resolutions are not defined" :=
  resolutions_not_defined_error.1 [] devcaps_source_new rfl rfl

/-- C3: the claim states that inverted width bounds (or inverted height
bounds) fail the parse whichever of the other bounds are absent.  The code
only validates when BOTH max bounds are non-zero: this document's platen
source has `MinWidth 5 ≥ MaxWidth 3` and no height bounds, yet the whole
document parses successfully and retains that source. -/
theorem size_validation_counterexample :
    (devcaps_parse devcaps_empty docWidthBug).1 = none ∧
    ((devcaps_parse devcaps_empty docWidthBug).2.src_platen.map
        (fun s => (s.min_width, s.max_width, s.max_height))) = some (5, 3, 0) := by
  decide

/-- C3 (amended): the window-size validation runs only when both parsed max
bounds are non-zero; in that case `min_width ≥ max_width` fails the source
with "Invalid scan:MinWidth or scan:MaxWidth", and otherwise
`min_height ≥ max_height` fails it with "Invalid scan:MinHeight or
scan:MaxHeight"; when either max bound is zero (absent) no size validation
occurs and the source parse succeeds.  The source error fails the whole
document parse when it reaches the top-level loop — any document whose
first child is a `scan:Platen` block with inverted width bounds fails
entirely, whatever follows — but inside a `scan:Adf` block a later
sibling's successful parse overwrites the error, so the document-level
failure is not universal (last conjunct: the same inverted bounds in an ADF
source are swallowed and the document is returned). -/
theorem size_validation_amended :
    (∀ (children : List XmlNode) (out : Option devcaps_source),
      (source_loop children devcaps_source_new).1 = none →
      ((source_loop children devcaps_source_new).2.max_width ≠ 0 →
        (source_loop children devcaps_source_new).2.max_height ≠ 0 →
        (source_loop children devcaps_source_new).2.min_width ≥
          (source_loop children devcaps_source_new).2.max_width →
        devcaps_source_parse children out =
          (some "Invalid scan:MinWidth or scan:MaxWidth", out)) ∧
      ((source_loop children devcaps_source_new).2.max_width ≠ 0 →
        (source_loop children devcaps_source_new).2.max_height ≠ 0 →
        (source_loop children devcaps_source_new).2.min_width <
          (source_loop children devcaps_source_new).2.max_width →
        (source_loop children devcaps_source_new).2.min_height ≥
          (source_loop children devcaps_source_new).2.max_height →
        devcaps_source_parse children out =
          (some "Invalid scan:MinHeight or scan:MaxHeight", out)) ∧
      (((source_loop children devcaps_source_new).2.max_width = 0 ∨
        (source_loop children devcaps_source_new).2.max_height = 0) →
        (devcaps_source_parse children out).1 = none)) ∧
    (∀ (srcCh rest : List XmlNode),
      (source_loop srcCh devcaps_source_new).1 = none →
      (source_loop srcCh devcaps_source_new).2.max_width ≠ 0 →
      (source_loop srcCh devcaps_source_new).2.max_height ≠ 0 →
      (source_loop srcCh devcaps_source_new).2.min_width ≥
        (source_loop srcCh devcaps_source_new).2.max_width →
      devcaps_parse devcaps_empty
          (XmlNode.mk "scan:ScannerCapabilities" "" (platen_wrap srcCh :: rest)) =
        (some "Invalid scan:MinWidth or scan:MaxWidth", devcaps_empty)) ∧
    ((devcaps_source_parse chSizeW none).1 =
        some "Invalid scan:MinWidth or scan:MaxWidth" ∧
      (devcaps_parse devcaps_empty docSizeSwallow).1 = none ∧
      (devcaps_parse devcaps_empty docSizeSwallow).2.src_adf_simplex ≠ none) := by
  have width : ∀ (children : List XmlNode) (out : Option devcaps_source),
      (source_loop children devcaps_source_new).1 = none →
      (source_loop children devcaps_source_new).2.max_width ≠ 0 →
      (source_loop children devcaps_source_new).2.max_height ≠ 0 →
      (source_loop children devcaps_source_new).2.min_width ≥
        (source_loop children devcaps_source_new).2.max_width →
      devcaps_source_parse children out =
        (some "Invalid scan:MinWidth or scan:MaxWidth", out) := by
    intro children out herr hw hh hge
    rcases hloop : source_loop children devcaps_source_new with ⟨err, src⟩
    rw [hloop] at herr hw hh hge
    subst herr
    unfold devcaps_source_parse
    rw [hloop]
    dsimp only
    rw [if_pos ⟨hw, hh⟩, if_pos hge]
  refine ⟨?_, ?_, by decide, by decide, by decide⟩
  · intro children out herr
    refine ⟨width children out herr, ?_, ?_⟩
    · intro hw hh hlt hge
      rcases hloop : source_loop children devcaps_source_new with ⟨err, src⟩
      rw [hloop] at herr hw hh hlt hge
      subst herr
      unfold devcaps_source_parse
      rw [hloop]
      dsimp only
      rw [if_pos ⟨hw, hh⟩, if_neg (Nat.not_le.mpr hlt), if_pos hge]
    · intro hzero
      rcases hloop : source_loop children devcaps_source_new with ⟨err, src⟩
      rw [hloop] at herr hzero
      subst herr
      unfold devcaps_source_parse
      rw [hloop]
      dsimp only
      rw [if_neg (fun hc => hzero.elim (fun h => hc.1 h) (fun h => hc.2 h))]
      cases out <;> rfl
  · intro srcCh rest herr hw hh hge
    have h1 : (devcaps_source_parse srcCh none).1 =
        some "Invalid scan:MinWidth or scan:MaxWidth" := by
      rw [width srcCh none herr hw hh hge]
    exact devcaps_parse_err_of_top_loop _ _ _
      (top_loop_platen_head_err srcCh rest devcaps_empty none none _ h1)

/-- C3 amended, witness: children with `MinWidth 5`, `MaxWidth 3` and
`MaxHeight 10` make the source parse fail with the width error. -/
theorem size_validation_amended_witness :
    devcaps_source_parse chSizeW none =
      (some "Invalid scan:MinWidth or scan:MaxWidth", none) :=
  (size_validation_amended.1 chSizeW none rfl).1 (by decide) (by decide) (by decide)

/-- The main loop of `devcaps_parse` only ever touches the source-pointer
fields: the vendor, model and sources fields of the threaded caps are
returned unchanged. -/
theorem top_loop_preserves_fields :
    ∀ (children : List XmlNode) (caps : devcaps) (m mm : Option String),
      (top_loop children caps m mm).2.1.vendor = caps.vendor ∧
      (top_loop children caps m mm).2.1.model = caps.model ∧
      (top_loop children caps m mm).2.1.sources = caps.sources := by
  intro children
  induction children with
  | nil => intro caps m mm; exact ⟨rfl, rfl, rfl⟩
  | cons node rest ih =>
    intro caps m mm
    simp only [top_loop]
    split
    · exact ih _ _ _
    · split
      · exact ih _ _ _
      · split
        · split
          · exact ⟨rfl, rfl, rfl⟩
          · exact ih _ _ _
        · split
          · split
            · exact ⟨rfl, rfl, rfl⟩
            · exact ih _ _ _
          · exact ih _ _ _

/-- C4: the claim states that a successfully returned document always has at
least one source present.  A document whose root has no children at all
parses successfully, yet the result has no sources: all three source
capabilities are absent and the sources list is empty. -/
theorem parse_no_sources_counterexample :
    (devcaps_parse devcaps_empty docEmptyCaps).1 = none ∧
    (devcaps_parse devcaps_empty docEmptyCaps).2.src_platen = none ∧
    (devcaps_parse devcaps_empty docEmptyCaps).2.src_adf_simplex = none ∧
    (devcaps_parse devcaps_empty docEmptyCaps).2.src_adf_duplex = none ∧
    (devcaps_parse devcaps_empty docEmptyCaps).2.sources = [] := by
  decide

/-- `derive_vendor_model` only writes the vendor and model fields. -/
theorem derive_vendor_model_fields (caps : devcaps) (m mm : Option String) :
    (derive_vendor_model caps m mm).sources = caps.sources ∧
    (derive_vendor_model caps m mm).src_platen = caps.src_platen ∧
    (derive_vendor_model caps m mm).src_adf_simplex = caps.src_adf_simplex ∧
    (derive_vendor_model caps m mm).src_adf_duplex = caps.src_adf_duplex := by
  unfold derive_vendor_model
  dsimp only
  cases m <;> cases mm <;> (repeat' split) <;> exact ⟨rfl, rfl, rfl, rfl⟩

/-- Starting from an unset vendor, `derive_vendor_model` always sets one
(the guessed prefix or the "Unknown" default). -/
theorem derive_vendor_model_vendor_some (caps : devcaps) (m mm : Option String)
    (h : caps.vendor = none) :
    (derive_vendor_model caps m mm).vendor.isSome = true := by
  unfold derive_vendor_model
  dsimp only
  cases m <;> cases mm <;> (repeat' split) <;> simp_all

/-- `update_sources` appends exactly the identifiers of the present sources
and touches nothing else. -/
theorem update_sources_fields (caps : devcaps) :
    (update_sources caps).vendor = caps.vendor ∧
    (update_sources caps).src_platen = caps.src_platen ∧
    (update_sources caps).src_adf_simplex = caps.src_adf_simplex ∧
    (update_sources caps).src_adf_duplex = caps.src_adf_duplex ∧
    (update_sources caps).sources = caps.sources ++
      ((if caps.src_platen.isSome then [OPTVAL_SOURCE_PLATEN] else []) ++
       (if caps.src_adf_simplex.isSome then [OPTVAL_SOURCE_ADF_SIMPLEX] else []) ++
       (if caps.src_adf_duplex.isSome then [OPTVAL_SOURCE_ADF_DUPLEX] else [])) := by
  unfold update_sources
  dsimp only
  refine ⟨rfl, rfl, rfl, rfl, ?_⟩
  split <;> split <;> split <;> simp_all

/-- C4 (amended): whenever `devcaps_parse` on an initialized (empty) caps
returns success, the result has a vendor set and its sources list reflects
exactly the present source capabilities, in the fixed order Platen,
ADF-Simplex, ADF-Duplex; but a document with no source blocks at all is
still returned successfully, with an empty sources list (see the
counterexample). -/
theorem parse_success_sources_amended :
    ∀ (xml : XmlNode) (caps' : devcaps),
      devcaps_parse devcaps_empty xml = (none, caps') →
      caps'.vendor.isSome = true ∧
      caps'.sources =
        (if caps'.src_platen.isSome then [OPTVAL_SOURCE_PLATEN] else []) ++
        (if caps'.src_adf_simplex.isSome then [OPTVAL_SOURCE_ADF_SIMPLEX] else []) ++
        (if caps'.src_adf_duplex.isSome then [OPTVAL_SOURCE_ADF_DUPLEX] else []) := by
  intro xml caps' h
  unfold devcaps_parse at h
  by_cases hname : xml.name = "scan:ScannerCapabilities"
  · rw [if_pos hname] at h
    rcases htop : top_loop xml.children devcaps_empty none none with ⟨err, caps0, m, mm⟩
    rw [htop] at h
    cases err with
    | some e => exact Option.noConfusion (congrArg Prod.fst h)
    | none =>
      have hcaps : update_sources (derive_vendor_model caps0 m mm) = caps' :=
        congrArg Prod.snd h
      obtain ⟨hv0, hm0, hs0⟩ := top_loop_preserves_fields xml.children devcaps_empty none none
      rw [htop] at hv0 hs0
      obtain ⟨hds, hdp, hdsx, hdd⟩ := derive_vendor_model_fields caps0 m mm
      obtain ⟨huv, hup, husx, hud, hus⟩ := update_sources_fields (derive_vendor_model caps0 m mm)
      subst hcaps
      constructor
      · rw [huv]
        exact derive_vendor_model_vendor_some caps0 m mm hv0
      · rw [hus, hds, hdp, hdsx, hdd, hup, husx, hud, hdp, hdsx, hdd, hs0]
        simp [devcaps_empty]
  · rw [if_neg hname] at h
    exact Option.noConfusion (congrArg Prod.fst h)

/-- C4 amended, witness: the empty document parses successfully; its result
has a vendor and a sources list matching its (absent) sources. -/
theorem parse_success_sources_amended_witness :
    (devcaps_parse devcaps_empty docEmptyCaps).2.vendor.isSome = true ∧
    (devcaps_parse devcaps_empty docEmptyCaps).2.sources =
      (if (devcaps_parse devcaps_empty docEmptyCaps).2.src_platen.isSome
        then [OPTVAL_SOURCE_PLATEN] else []) ++
      (if (devcaps_parse devcaps_empty docEmptyCaps).2.src_adf_simplex.isSome
        then [OPTVAL_SOURCE_ADF_SIMPLEX] else []) ++
      (if (devcaps_parse devcaps_empty docEmptyCaps).2.src_adf_duplex.isSome
        then [OPTVAL_SOURCE_ADF_DUPLEX] else []) :=
  parse_success_sources_amended docEmptyCaps
    (devcaps_parse devcaps_empty docEmptyCaps).2 rfl

/-- C8: the claim states that whenever both strings are captured and the
make-and-model string is strictly longer than the model string and ends
with it, the vendor is the trimmed prefix.  With a captured EMPTY model
string and make-and-model "Acme" the condition of the claim holds ("Acme"
is strictly longer than "" and ends with it), yet the code tests
`model_len` for zero first and falls back to "Unknown" instead of "Acme". -/
theorem vendor_empty_model_counterexample :
    (devcaps_parse devcaps_empty docVendorEmptyModel).1 = none ∧
    (devcaps_parse devcaps_empty docVendorEmptyModel).2.vendor = some "Unknown" ∧
    (devcaps_parse devcaps_empty docVendorEmptyModel).2.vendor ≠ some "Acme" ∧
    ("Acme".length > "".length ∧ g_str_has_suffix "Acme" "" = true) := by
  decide

/-- C8 (amended): when a NON-EMPTY model string and a make-and-model string
are both captured, and the make-and-model string is strictly longer and
ends with the model string, the derived vendor is the make-and-model string
with the model suffix removed and trailing whitespace trimmed; in every
other case (including an empty captured model string) the vendor is the
literal "Unknown". -/
theorem vendor_derivation_amended :
    ∀ (ch : List XmlNode) (m a : String),
      (top_loop ch devcaps_empty none none).1 = none →
      (top_loop ch devcaps_empty none none).2.2.1 = some m →
      (top_loop ch devcaps_empty none none).2.2.2 = some a →
      (m.length ≠ 0 ∧ a.length > m.length ∧ g_str_has_suffix a m = true →
        (devcaps_parse devcaps_empty
            (XmlNode.mk "scan:ScannerCapabilities" "" ch)).2.vendor =
          some (g_strchomp (g_strndup a (a.length - m.length)))) ∧
      (¬(m.length ≠ 0 ∧ a.length > m.length ∧ g_str_has_suffix a m = true) →
        (devcaps_parse devcaps_empty
            (XmlNode.mk "scan:ScannerCapabilities" "" ch)).2.vendor =
          some "Unknown") := by
  intro ch m a herr hm ha
  rcases htop : top_loop ch devcaps_empty none none with ⟨err, caps0, m', mm'⟩
  rw [htop] at herr hm ha
  dsimp only at herr hm ha
  subst herr
  have hm' : m' = some m := hm
  have ha' : mm' = some a := ha
  subst hm' ha'
  unfold devcaps_parse
  rw [if_pos (by rfl)]
  dsimp only [XmlNode.children]
  rw [htop]
  dsimp only
  obtain ⟨huv, _, _, _, _⟩ := update_sources_fields (derive_vendor_model caps0 (some m) (some a))
  rw [huv]
  have hv0 : caps0.vendor = none := by
    have h := (top_loop_preserves_fields ch devcaps_empty none none).1
    rw [htop] at h
    exact h
  unfold derive_vendor_model
  dsimp only [Option.getD]
  constructor
  · intro hcond
    rw [if_pos hcond]
    rw [if_neg (by simp)]
  · intro hcond
    rw [if_neg hcond, if_pos hv0]

/-- C8 amended, witness: model "Model X" with make-and-model "Acme Model X"
derives the vendor "Acme". -/
theorem vendor_derivation_amended_witness :
    (devcaps_parse devcaps_empty
        (XmlNode.mk "scan:ScannerCapabilities" "" chVendorAcme)).2.vendor =
      some "Acme" := by
  have h := (vendor_derivation_amended chVendorAcme "Model X" "Acme Model X"
    rfl rfl rfl).1 (by decide)
  rw [h]
  decide

/-- C9: the claim states that a later duplicate source block is parsed,
validated and then discarded silently, producing no error.  On a document
whose second platen block is invalid (no resolutions), the whole document
parse fails and everything is discarded: the duplicate's validation error
is not silent. -/
theorem duplicate_invalid_counterexample :
    (devcaps_parse devcaps_empty docDupBad).1 =
      some "Source resolutions are not defined" ∧
    (devcaps_parse devcaps_empty docDupBad).2 = devcaps_empty := by
  decide

/-- C9 (amended): a later duplicate source block never replaces an
already-stored capability (whether its own parse succeeds or fails, the
stored `out` pointer is returned unchanged); a document with two VALID
platen blocks parses successfully, retaining the capability of the first
block (different from what the second block alone would produce).  A later
duplicate whose parse fails is not discarded silently: for two top-level
platen blocks, the failing second duplicate's error aborts the whole
document parse (proved for every pair of a succeeding first and a failing
second block); but inside one `scan:Adf` block a failing middle duplicate's
error can be overwritten by a third duplicate's successful parse, so the
document is returned with the first capability retained (last conjunct). -/
theorem duplicate_first_retained_amended :
    (∀ (children : List XmlNode) (src0 : devcaps_source),
      (devcaps_source_parse children (some src0)).2 = some src0) ∧
    (∀ (ch1 ch2 : List XmlNode) (e : String),
      (devcaps_source_parse ch1 none).1 = none →
      (devcaps_source_parse ch2 (devcaps_source_parse ch1 none).2).1 = some e →
      devcaps_parse devcaps_empty
          (XmlNode.mk "scan:ScannerCapabilities" "" [platen_wrap ch1, platen_wrap ch2]) =
        (some e, devcaps_empty)) ∧
    ((devcaps_parse devcaps_empty docDupGood).1 = none ∧
     (devcaps_parse devcaps_empty docDupGood).2.src_platen =
       (devcaps_parse devcaps_empty docDupFirst).2.src_platen ∧
     (devcaps_parse devcaps_empty docDupGood).2.src_platen ≠
       (devcaps_parse devcaps_empty docDupSecond).2.src_platen) ∧
    ((devcaps_source_parse badResChildren
        (devcaps_parse devcaps_empty docDupAdfFirst).2.src_adf_simplex).1 =
      some "Source resolutions are not defined" ∧
     (devcaps_parse devcaps_empty docDupSwallow).1 = none ∧
     (devcaps_parse devcaps_empty docDupSwallow).2.src_adf_simplex =
       (devcaps_parse devcaps_empty docDupAdfFirst).2.src_adf_simplex) := by
  refine ⟨?_, ?_, ⟨by decide, by decide, by decide⟩, by decide, by decide, by decide⟩
  · intro children src0
    unfold devcaps_source_parse
    rcases source_loop children devcaps_source_new with ⟨err, src⟩
    cases err
    · dsimp only
      split
      · split
        · rfl
        · split
          · rfl
          · rfl
      · rfl
    · rfl
  · intro ch1 ch2 e h1 h2
    rcases hp1 : devcaps_source_parse ch1 none with ⟨e1, out1⟩
    rw [hp1] at h1 h2
    dsimp only at h1 h2
    subst h1
    apply devcaps_parse_err_of_top_loop
    rw [top_loop_platen_head_ok ch1 [platen_wrap ch2] devcaps_empty none none out1 hp1]
    exact top_loop_platen_head_err ch2 [] _ none none e h2
